import Mathlib

/-!
FarmBot remote-control example: `index.js`.

A shallow embedding of `src/index.js` and theorems about its startup sequence
(`createToken`, `start`, the top-level credential check) and its scheduler
callback (`loop`).

Modelling conventions.

* The three third-party collaborators are not part of the program: the HTTP
  client (`post`), the device SDK (`new Farmbot`, `connect`, `moveRelative`)
  and the host (`console`, `setInterval`, `process.env`).  Calls to them are
  recorded, in program order, in a trace of `Effect`s.  Whether the SDK
  constructor throws and how the token request and `connect()` settle is a
  parameter (`World`); the settlement of these two promises, which the startup
  chain waits for, is recorded in the trace at the point where the chain goes
  on.  How a `moveRelative` promise settles is an external event
  (`Event.resolved`, `Event.rejected`).
* A promise chain is a state transformer that also says how the promise
  settled (`Async`): `.then` is `Async.andThen`, `.catch` is `Async.catchWith`.
* `APPLICATION_STATE` is the record `AppState`; the promises returned by
  `moveRelative` that have not settled yet, together with the callbacks `loop`
  attached to them, are the list `Sys.inflight`.
-/

namespace RemoteControl

/-! ## Values -/

/-- A JavaScript exception or promise rejection value. -/
inductive JSError where
  /-- An error made by `new Error(message)`. -/
  | error (message : String)
  /-- A `TypeError` raised by the runtime, here by reading a property of `undefined`. -/
  | typeError (message : String)
  /-- A rejection produced by one of the external libraries. -/
  | rejection (reason : String)
  deriving DecidableEq, Repr

/-- The argument of `moveRelative`: `{ x, y, z }`. -/
structure Offset where
  x : Int
  y : Int
  z : Int
  deriving DecidableEq, Repr

/-- The object `new Farmbot({ token: token })` when the constructor returns: the
SDK is a black box, so the session object is represented by the configuration
it was constructed with. -/
structure Farmbot where
  token : String
  deriving DecidableEq, Repr

/-- The `token` object of a token response: `{ encoded: ... }`. -/
structure TokenBody where
  encoded : String
  deriving DecidableEq, Repr

/-- The `data` object of a token response: `{ token: ... }`. -/
structure ResponseData where
  token : TokenBody
  deriving DecidableEq, Repr

/-- A successful response of `POST /api/tokens`, of the shape `tokenOK` reads:
`response.data.token.encoded`. -/
structure Response where
  data : ResponseData
  deriving DecidableEq, Repr

/-- The `user` object of the request body; a value read from `process.env` is a
string or `undefined`. -/
structure User where
  email : Option String
  password : Option String
  deriving DecidableEq, Repr

/-- The request body `{ user: { email, password } }`. -/
structure Payload where
  user : User
  deriving DecidableEq, Repr

/-- What happens in a run, as seen from outside: a call the program makes to one
of its external collaborators, or the settlement of a promise the startup chain
waits for. -/
inductive Effect where
  /-- The call `console.log(msg)`. -/
  | consoleLog (msg : String)
  /-- The call `console.dir(error)`. -/
  | consoleDir (error : JSError)
  /-- The call `post(url, payload)`. -/
  | post (url : String) (payload : Payload)
  /-- The promise returned by `post` resolves with `response`. -/
  | postResolved (response : Response)
  /-- The promise returned by `post` is rejected with `error`. -/
  | postRejected (error : JSError)
  /-- The construction `new Farmbot({ token: token })`. -/
  | newFarmbot (token : String)
  /-- The call `farmbot.connect()`. -/
  | connect (farmbot : Farmbot)
  /-- The promise returned by `farmbot.connect()` resolves. -/
  | connectResolved (farmbot : Farmbot)
  /-- The promise returned by `farmbot.connect()` is rejected with `error`. -/
  | connectRejected (farmbot : Farmbot) (error : JSError)
  /-- The call `farmbot.moveRelative(offset)`. -/
  | moveRelative (farmbot : Farmbot) (offset : Offset)
  /-- The call `setInterval(loop, ms)`. -/
  | setInterval (ms : Nat)
  deriving DecidableEq, Repr

/-! ## State -/

/-- The record `APPLICATION_STATE`. -/
structure AppState where
  farmbot : Option Farmbot
  direction : String
  busy : Bool
  deriving DecidableEq, Repr

/-- The initial value of `APPLICATION_STATE`
(`farmbot: undefined, direction: "up", busy: false`). -/
def APPLICATION_STATE : AppState :=
  { farmbot := none, direction := "up", busy := false }

/-- A promise returned by `moveRelative` that has not settled, with the callbacks
`loop` chained on it: the `.then` callback assigns `thenDirection` to
`APPLICATION_STATE.direction` and `false` to `APPLICATION_STATE.busy`; the
`.catch` callback is `errorHandler`. -/
structure Pending where
  farmbot : Farmbot
  offset : Offset
  thenDirection : String
  deriving DecidableEq, Repr

/-- The whole system: the application state, the commands in flight and the
trace of external calls made so far. -/
structure Sys where
  app : AppState
  inflight : List Pending
  trace : List Effect
  deriving DecidableEq, Repr

/-- The system when the module starts to run. -/
def Sys.init : Sys :=
  { app := APPLICATION_STATE, inflight := [], trace := [] }

/-- Record one external call. -/
def Sys.emit (s : Sys) (e : Effect) : Sys :=
  { s with trace := s.trace ++ [e] }

/-- A computation of the program: the system after it, and the value it
returned (or its promise resolved to) or the error it threw (or its promise
was rejected with). -/
abbrev Async (α : Type) := Sys → Sys × Except JSError α

/-- The chain `p.then(f)`: `f` runs on the value `p` resolved to; a rejection of `p`
passes through. -/
def Async.andThen {α β : Type} (p : Async α) (f : α → Async β) : Async β :=
  fun s =>
    match p s with
    | (s1, .ok v) => f v s1
    | (s1, .error e) => (s1, .error e)

/-- The chain `p.catch(h)`: `h` runs on the error `p` was rejected with, and the result
settles as `h` does; a value of `p` passes through. -/
def Async.catchWith {α : Type} (p : Async α) (h : JSError → Async α) : Async α :=
  fun s =>
    match p s with
    | (s1, .ok v) => (s1, .ok v)
    | (s1, .error e) => h e s1

/-- The call `console.log(msg)`. -/
def consoleLog (msg : String) : Async Unit :=
  fun s => (s.emit (.consoleLog msg), .ok ())

/-- The call `console.dir(error)`. -/
def consoleDir (error : JSError) : Async Unit :=
  fun s => (s.emit (.consoleDir error), .ok ())

/-! ## Configuration -/

/-- The variables the program reads from `process.env`. -/
structure ProcessEnv where
  FARMBOT_PASSWORD : Option String
  FARMBOT_EMAIL : Option String
  FARMBOT_SERVER : Option String
  deriving DecidableEq, Repr

/-- JavaScript truthiness of a value that is a string or `undefined`. -/
def truthy : Option String → Bool
  | none => false
  | some s => s ≠ ""

/-- The constant `const PASSWORD = process.env.FARMBOT_PASSWORD;` -/
def PASSWORD (env : ProcessEnv) : Option String := env.FARMBOT_PASSWORD

/-- The constant `const EMAIL = process.env.FARMBOT_EMAIL;` -/
def EMAIL (env : ProcessEnv) : Option String := env.FARMBOT_EMAIL

/-- The constant `const SERVER = process.env.FARMBOT_SERVER || "https://my.farm.bot";` -/
def SERVER (env : ProcessEnv) : String :=
  match env.FARMBOT_SERVER with
  | some s => if s ≠ "" then s else "https://my.farm.bot"
  | none => "https://my.farm.bot"

/-- How the external calls of the startup sequence turn out. -/
structure World where
  /-- The outcome of `post(url, payload)`. -/
  post : String → Payload → Except JSError Response
  /-- Whether `new Farmbot({ token: token })` returns or throws: the constructor
  decodes the token and throws on one it cannot decode. -/
  newFarmbot : String → Except JSError Unit
  /-- The outcome of `farmbot.connect()`. -/
  connect : Farmbot → Except JSError Unit

/-- The promise returned by `post(url, payload)` settles; the chain `.then(tokenOK)`
goes on from here. -/
def postSettles (w : World) (url : String) (payload : Payload) : Async Response :=
  fun s =>
    match w.post url payload with
    | .ok r => (s.emit (.postResolved r), .ok r)
    | .error e => (s.emit (.postRejected e), .error e)

/-- The promise returned by `farmbot.connect()` settles; the chain it was returned
to goes on from here. -/
def connectSettles (w : World) (fb : Farmbot) : Async Unit :=
  fun s =>
    match w.connect fb with
    | .ok u => (s.emit (.connectResolved fb), .ok u)
    | .error e => (s.emit (.connectRejected fb e), .error e)

/-! ## The program -/

/-- The callback `tokenOK`. -/
def tokenOK (response : Response) : Async String :=
  (consoleLog ("GOT TOKEN: " ++ response.data.token.encoded)).andThen
    fun _ s => (s, .ok response.data.token.encoded)

/-- The callback `errorHandler`. -/
def errorHandler (error : JSError) : Async Unit :=
  (consoleLog "=== ERROR ===").andThen fun _ => consoleDir error

/-- The function `createToken`. -/
def createToken (w : World) (env : ProcessEnv) (email password : Option String) :
    Async String :=
  let payload : Payload := { user := { email := email, password := password } }
  Async.andThen
    (fun s =>
      postSettles w (SERVER env ++ "/api/tokens") payload
        (s.emit (.post (SERVER env ++ "/api/tokens") payload)))
    tokenOK

/-- The function `start`. In the first `.then` callback the constructor is
called; when it throws, the assignment to `APPLICATION_STATE.farmbot` and the
call of `connect()` are skipped and the chain is rejected; when it returns, the
session is stored and the promise of `connect()` is returned to the chain,
which waits for it. -/
def start (w : World) (env : ProcessEnv) : Async Unit :=
  (((createToken w env (EMAIL env) (PASSWORD env)).andThen
      fun token s =>
        let s1 := (s.emit (.newFarmbot token))
        match w.newFarmbot token with
        | .error e => (s1, .error e)
        | .ok _ =>
          let s2 : Sys := { s1 with app := { s1.app with farmbot := some { token := token } } }
          connectSettles w { token := token } (s2.emit (.connect { token := token }))).andThen
      fun _ => consoleLog "CONNECTED TO FARMBOT!").catchWith
    errorHandler

/-- The call `APPLICATION_STATE.farmbot.moveRelative(offset).then(...).catch(errorHandler)`
of `loop`: reading `moveRelative` from `undefined` throws; otherwise the command
is issued and its promise, with the two callbacks, is in flight. -/
def issueMove (offset : Offset) (thenDirection : String) : Async Unit :=
  fun s =>
    match s.app.farmbot with
    | none =>
      (s, .error (.typeError "Cannot read property moveRelative of undefined"))
    | some fb =>
      ({ s.emit (.moveRelative fb offset) with
          inflight := s.inflight ++
            [{ farmbot := fb, offset := offset, thenDirection := thenDirection }] },
        .ok ())

/-- The function `loop`. -/
def loop : Async Unit :=
  fun s =>
    if s.app.busy then
      consoleLog "Busy. Not running loop." s
    else
      let s1 := (consoleLog ("Move Z Axis " ++ s.app.direction) s).1
      let s2 : Sys := { s1 with app := { s1.app with busy := true } }
      if s2.app.direction = "up" then
        issueMove { x := 0, y := 0, z := 1 } "down" s2
      else
        issueMove { x := 0, y := 0, z := -1 } "up" s2

/-- The top-level statement of the module: the credential check, `start()` and
`.then(() => setInterval(loop, 3000))`, or the thrown `Error`. -/
def main (w : World) (env : ProcessEnv) : Sys × Except JSError Unit :=
  if truthy (PASSWORD env) && truthy (EMAIL env) then
    ((start w env).andThen fun _ s => (s.emit (.setInterval 3000), .ok ())) Sys.init
  else
    (Sys.init,
      .error (.error "You did not set FARMBOT_EMAIL or FARMBOT_PASSWORD in the .env file."))

/-! ## Settling of commands and the event loop -/

/-- The `i`-th promise in flight resolves: the `.then` callback attached by
`loop` runs. With no such promise nothing happens. -/
def moveResolved (i : Nat) (s : Sys) : Sys :=
  match s.inflight[i]? with
  | none => s
  | some p =>
    { s with
      inflight := s.inflight.eraseIdx i
      app := { s.app with direction := p.thenDirection, busy := false } }

/-- The `i`-th promise in flight is rejected with `e`: the `.catch` callback
attached by `loop`, `errorHandler`, runs. With no such promise nothing happens. -/
def moveRejected (i : Nat) (e : JSError) (s : Sys) : Sys :=
  match s.inflight[i]? with
  | none => s
  | some _ => (errorHandler e { s with inflight := s.inflight.eraseIdx i }).1

/-- What can happen once the module has run: the timer fires and `loop` is
called, or a command in flight settles. -/
inductive Event where
  | tick
  | resolved (i : Nat)
  | rejected (i : Nat) (e : JSError)
  deriving DecidableEq, Repr

/-- One event. An exception thrown by `loop` is not caught by the program. -/
def step (s : Sys) : Event → Sys
  | .tick => (loop s).1
  | .resolved i => moveResolved i s
  | .rejected i e => moveRejected i e s

/-- A sequence of events, left to right. -/
def run (s : Sys) (es : List Event) : Sys :=
  es.foldl step s

/-- The `moveRelative` offsets in a trace, in order of issue. -/
def issued : List Effect → List Offset
  | [] => []
  | .moveRelative _ o :: t => o :: issued t
  | _ :: t => issued t

/-- Whether `setInterval(loop, ...)` has been called: the loop is armed. -/
def armed (s : Sys) : Bool :=
  s.trace.any fun e => match e with
    | .setInterval _ => true
    | _ => false

/-- The result of `n` invocations of `loop` in a row, nothing else happening in between. -/
def loops : Nat → Sys → Sys
  | 0, s => s
  | n + 1, s => loops n (loop s).1

/-- One invocation of `loop` followed by the success of the command in flight. -/
def successfulTick (s : Sys) : Sys :=
  moveResolved 0 (loop s).1

/-- The result of `n` invocations of `loop`, each followed by the success of the command in
flight before the next invocation. -/
def successfulTicks : Nat → Sys → Sys
  | 0, s => s
  | n + 1, s => successfulTicks n (successfulTick s)

/-- The invariant behind the busy flag: at most one command is in flight, and
none when `busy` is false. -/
def BusyInv (s : Sys) : Prop :=
  s.inflight.length ≤ 1 ∧ (s.app.busy = false → s.inflight = [])

/-! ## Example runs -/

/-- The environment of the end-to-end scenario: email `a@example.com`,
password `x`, default server. -/
def exampleEnv : ProcessEnv :=
  { FARMBOT_PASSWORD := some "x", FARMBOT_EMAIL := some "a@example.com",
    FARMBOT_SERVER := none }

/-- An environment with a password and no email. -/
def noEmailEnv : ProcessEnv :=
  { FARMBOT_PASSWORD := some "x", FARMBOT_EMAIL := none, FARMBOT_SERVER := none }

/-- A token of the shape the server issues (three dot-separated base64 parts). -/
def exampleToken : String :=
  "eyJhbGciOiJSUzI1NiIsInR5cCI6IkpXVCJ9.eyJib3QiOiJkZXZpY2VfMSIsIm1xdHQiOiJtcXR0LmZhcm0uYm90In0.c2ln"

/-- The response `{data: {token: {encoded: exampleToken}}}`. -/
def exampleResponse : Response :=
  { data := { token := { encoded := exampleToken } } }

/-- A world where the server answers `exampleResponse`, the constructor returns
and `connect()` resolves. -/
def connectedWorld : World :=
  { post := fun _ _ => .ok exampleResponse
    newFarmbot := fun _ => .ok ()
    connect := fun _ => .ok () }

/-- A world where the token request is rejected. -/
def tokenRejectedWorld : World :=
  { post := fun _ _ => .error (.rejection "Request failed with status code 401")
    newFarmbot := fun _ => .ok ()
    connect := fun _ => .ok () }

/-- A world where the token request succeeds, the constructor returns and
`connect()` is rejected. -/
def connectRejectedWorld : World :=
  { post := fun _ _ => .ok exampleResponse
    newFarmbot := fun _ => .ok ()
    connect := fun _ => .error (.rejection "connection refused") }

/-- A world where the server answers `{data: {token: {encoded: "T123"}}}` and the
constructor throws on `"T123"`, which it cannot decode. -/
def constructorThrowsWorld : World :=
  { post := fun _ _ => .ok { data := { token := { encoded := "T123" } } }
    newFarmbot := fun token =>
      if token = "T123" then .error (.error "Unable to decode token") else .ok ()
    connect := fun _ => .ok () }

/-! ## Basic facts -/

theorem issued_append (t u : List Effect) : issued (t ++ u) = issued t ++ issued u := by
  induction t with
  | nil => rfl
  | cons e t ih => cases e <;> simp [issued, ih]

theorem loop_busy (s : Sys) (h : s.app.busy = true) :
    loop s = (s.emit (.consoleLog "Busy. Not running loop."), .ok ()) := by
  simp [loop, h, consoleLog]

theorem loop_idle_up (s : Sys) (fb : Farmbot) (hb : s.app.busy = false)
    (hf : s.app.farmbot = some fb) (hd : s.app.direction = "up") :
    loop s =
      ({ app := { s.app with busy := true }
         inflight := s.inflight ++
           [{ farmbot := fb, offset := { x := 0, y := 0, z := 1 }, thenDirection := "down" }]
         trace := s.trace ++
           [.consoleLog "Move Z Axis up", .moveRelative fb { x := 0, y := 0, z := 1 }] },
        .ok ()) := by
  simp [loop, hb, hf, hd, consoleLog, issueMove, Sys.emit]

theorem loop_idle_other (s : Sys) (fb : Farmbot) (hb : s.app.busy = false)
    (hf : s.app.farmbot = some fb) (hd : s.app.direction ≠ "up") :
    loop s =
      ({ app := { s.app with busy := true }
         inflight := s.inflight ++
           [{ farmbot := fb, offset := { x := 0, y := 0, z := -1 }, thenDirection := "up" }]
         trace := s.trace ++
           [.consoleLog ("Move Z Axis " ++ s.app.direction),
            .moveRelative fb { x := 0, y := 0, z := -1 }] },
        .ok ()) := by
  simp [loop, hb, hf, hd, consoleLog, issueMove, Sys.emit]

theorem loop_idle_none (s : Sys) (hb : s.app.busy = false) (hf : s.app.farmbot = none) :
    loop s =
      ({ app := { s.app with busy := true }
         inflight := s.inflight
         trace := s.trace ++ [.consoleLog ("Move Z Axis " ++ s.app.direction)] },
        .error (.typeError "Cannot read property moveRelative of undefined")) := by
  by_cases hd : s.app.direction = "up" <;>
    simp [loop, hb, hf, hd, consoleLog, issueMove, Sys.emit]

theorem loops_busy (n : Nat) (s : Sys) (h : s.app.busy = true) :
    loops n s =
      { s with trace := s.trace ++ List.replicate n (.consoleLog "Busy. Not running loop.") } := by
  induction n generalizing s with
  | zero => simp [loops]
  | succ n ih =>
    rw [loops, loop_busy s h, ih _ (by simpa [Sys.emit] using h)]
    simp [Sys.emit, List.replicate_succ]

theorem eraseIdx_length_append_singleton {α : Type} (l : List α) (x : α) :
    (l ++ [x]).eraseIdx l.length = l := by
  induction l with
  | nil => rfl
  | cons a l ih => simp [List.eraseIdx, ih]

theorem issued_replicate_log (n : Nat) (msg : String) :
    issued (List.replicate n (.consoleLog msg)) = [] := by
  induction n with
  | zero => rfl
  | succ n ih => simp [List.replicate_succ, issued, ih]

theorem createToken_resolved (w : World) (env : ProcessEnv) (email password : Option String)
    (r : Response) (s : Sys)
    (h : w.post (SERVER env ++ "/api/tokens")
      { user := { email := email, password := password } } = .ok r) :
    createToken w env email password s =
      ({ s with trace := s.trace ++
          [.post (SERVER env ++ "/api/tokens")
              { user := { email := email, password := password } },
           .postResolved r,
           .consoleLog ("GOT TOKEN: " ++ r.data.token.encoded)] },
        .ok r.data.token.encoded) := by
  simp [createToken, postSettles, Async.andThen, h, consoleLog, Sys.emit, tokenOK]

theorem start_token_rejected (w : World) (env : ProcessEnv) (e : JSError) (s : Sys)
    (h : w.post (SERVER env ++ "/api/tokens")
      { user := { email := EMAIL env, password := PASSWORD env } } = .error e) :
    start w env s =
      ({ s with trace := s.trace ++
          [.post (SERVER env ++ "/api/tokens")
              { user := { email := EMAIL env, password := PASSWORD env } },
           .postRejected e,
           .consoleLog "=== ERROR ===", .consoleDir e] },
        .ok ()) := by
  simp [start, createToken, postSettles, Async.andThen, Async.catchWith, h, errorHandler,
    consoleLog, consoleDir, Sys.emit]

theorem start_constructor_throws (w : World) (env : ProcessEnv) (r : Response) (e : JSError)
    (s : Sys)
    (h : w.post (SERVER env ++ "/api/tokens")
      { user := { email := EMAIL env, password := PASSWORD env } } = .ok r)
    (hn : w.newFarmbot r.data.token.encoded = .error e) :
    start w env s =
      ({ s with trace := s.trace ++
          [.post (SERVER env ++ "/api/tokens")
              { user := { email := EMAIL env, password := PASSWORD env } },
           .postResolved r,
           .consoleLog ("GOT TOKEN: " ++ r.data.token.encoded),
           .newFarmbot r.data.token.encoded,
           .consoleLog "=== ERROR ===", .consoleDir e] },
        .ok ()) := by
  simp [start, createToken, postSettles, Async.andThen, Async.catchWith, h, hn, errorHandler,
    consoleLog, consoleDir, Sys.emit, tokenOK]

theorem start_connect_rejected (w : World) (env : ProcessEnv) (r : Response) (e : JSError)
    (s : Sys)
    (h : w.post (SERVER env ++ "/api/tokens")
      { user := { email := EMAIL env, password := PASSWORD env } } = .ok r)
    (hn : w.newFarmbot r.data.token.encoded = .ok ())
    (hc : w.connect { token := r.data.token.encoded } = .error e) :
    start w env s =
      ({ s with
          app := { s.app with farmbot := some { token := r.data.token.encoded } }
          trace := s.trace ++
          [.post (SERVER env ++ "/api/tokens")
              { user := { email := EMAIL env, password := PASSWORD env } },
           .postResolved r,
           .consoleLog ("GOT TOKEN: " ++ r.data.token.encoded),
           .newFarmbot r.data.token.encoded,
           .connect { token := r.data.token.encoded },
           .connectRejected { token := r.data.token.encoded } e,
           .consoleLog "=== ERROR ===", .consoleDir e] },
        .ok ()) := by
  simp [start, createToken, postSettles, connectSettles, Async.andThen, Async.catchWith, h, hn,
    hc, errorHandler, consoleLog, consoleDir, Sys.emit, tokenOK]

theorem start_connected (w : World) (env : ProcessEnv) (r : Response) (s : Sys)
    (h : w.post (SERVER env ++ "/api/tokens")
      { user := { email := EMAIL env, password := PASSWORD env } } = .ok r)
    (hn : w.newFarmbot r.data.token.encoded = .ok ())
    (hc : w.connect { token := r.data.token.encoded } = .ok ()) :
    start w env s =
      ({ s with
          app := { s.app with farmbot := some { token := r.data.token.encoded } }
          trace := s.trace ++
          [.post (SERVER env ++ "/api/tokens")
              { user := { email := EMAIL env, password := PASSWORD env } },
           .postResolved r,
           .consoleLog ("GOT TOKEN: " ++ r.data.token.encoded),
           .newFarmbot r.data.token.encoded,
           .connect { token := r.data.token.encoded },
           .connectResolved { token := r.data.token.encoded },
           .consoleLog "CONNECTED TO FARMBOT!"] },
        .ok ()) := by
  simp [start, createToken, postSettles, connectSettles, Async.andThen, Async.catchWith, h, hn,
    hc, consoleLog, Sys.emit, tokenOK]

/-! ## The scheduler callback -/

/-- C3 (busy guard). With `busy == true`, one invocation of `loop` returns
normally, issues no `moveRelative` command (the only external call is the
skip notice) and leaves `APPLICATION_STATE` (`farmbot`, `direction`, `busy`)
and the commands in flight unchanged. -/
theorem loop_busy_guard (s : Sys) (h : s.app.busy = true) :
    (loop s).2 = .ok () ∧
    (loop s).1.app = s.app ∧
    (loop s).1.inflight = s.inflight ∧
    (loop s).1.trace = s.trace ++ [.consoleLog "Busy. Not running loop."] ∧
    issued (loop s).1.trace = issued s.trace := by
  rw [loop_busy s h]
  simp [Sys.emit, issued_append, issued]

/-- A busy state on which `loop_busy_guard` is exercised. -/
theorem loop_busy_guard_witness :
    (loop { app := { farmbot := some { token := "T123" }, direction := "down", busy := true }
            inflight := [{ farmbot := { token := "T123" }, offset := { x := 0, y := 0, z := 1 }
                           thenDirection := "down" }]
            trace := [] }).1.app
      = { farmbot := some { token := "T123" }, direction := "down", busy := true } :=
  (loop_busy_guard
    { app := { farmbot := some { token := "T123" }, direction := "down", busy := true }
      inflight := [{ farmbot := { token := "T123" }, offset := { x := 0, y := 0, z := 1 }
                     thenDirection := "down" }]
      trace := [] } rfl).2.1

/-- C9 (idle tick). With `busy == false` and a session present, one invocation
of `loop` returns normally, sets `busy` to true and changes nothing else of
`APPLICATION_STATE` (so `direction` keeps its value), puts exactly one command
in flight, and makes exactly two external calls: the log line and one
`moveRelative`, with offset `{x: 0, y: 0, z: 1}` when `direction` is `"up"` and
`{x: 0, y: 0, z: -1}` when it is `"down"`. The initial direction is `"up"`, so
the first tick with a session sends `{x: 0, y: 0, z: 1}`. -/
theorem loop_idle_tick (s : Sys) (fb : Farmbot) (hb : s.app.busy = false)
    (hf : s.app.farmbot = some fb) :
    (loop s).2 = .ok () ∧
    (loop s).1.app = { s.app with busy := true } ∧
    (loop s).1.inflight.length = s.inflight.length + 1 ∧
    (s.app.direction = "up" →
      (loop s).1.trace = s.trace ++
        [.consoleLog "Move Z Axis up", .moveRelative fb { x := 0, y := 0, z := 1 }]) ∧
    (s.app.direction = "down" →
      (loop s).1.trace = s.trace ++
        [.consoleLog "Move Z Axis down", .moveRelative fb { x := 0, y := 0, z := -1 }]) ∧
    (loop { app := { APPLICATION_STATE with farmbot := some fb }, inflight := [],
            trace := [] }).1.trace =
      [.consoleLog "Move Z Axis up", .moveRelative fb { x := 0, y := 0, z := 1 }] := by
  refine ⟨?_, ?_, ?_, ?_, ?_, ?_⟩
  · by_cases hd : s.app.direction = "up"
    · rw [loop_idle_up s fb hb hf hd]
    · rw [loop_idle_other s fb hb hf hd]
  · by_cases hd : s.app.direction = "up"
    · rw [loop_idle_up s fb hb hf hd]
    · rw [loop_idle_other s fb hb hf hd]
  · by_cases hd : s.app.direction = "up"
    · rw [loop_idle_up s fb hb hf hd]; simp
    · rw [loop_idle_other s fb hb hf hd]; simp
  · intro hd
    rw [loop_idle_up s fb hb hf hd]
  · intro hd
    have hne : s.app.direction ≠ "up" := by rw [hd]; decide
    rw [loop_idle_other s fb hb hf hne, hd]
    rfl
  · rw [loop_idle_up _ fb rfl rfl rfl]
    rfl

/-- An idle state with direction `"down"` on which `loop_idle_tick` is exercised. -/
theorem loop_idle_tick_witness :
    (loop { app := { farmbot := some { token := "T123" }, direction := "down", busy := false }
            inflight := [], trace := [] }).1.trace
      = [.consoleLog "Move Z Axis down",
         .moveRelative { token := "T123" } { x := 0, y := 0, z := -1 }] :=
  (loop_idle_tick
    { app := { farmbot := some { token := "T123" }, direction := "down", busy := false }
      inflight := [], trace := [] } { token := "T123" } rfl rfl).2.2.2.2.1 rfl

/-- C10 (tick with no session). With `busy == false` and `farmbot` undefined,
which is the application state `start` leaves behind when the token request is
rejected, an invocation of `loop` sets `busy` to true and throws a `TypeError`
with no `moveRelative` issued and nothing put in flight; each of any number of
later invocations takes the busy branch (it only logs the skip notice), so no
command is issued and the application state, with `busy == true`, stays as it is. -/
theorem loop_without_session (s : Sys) (hb : s.app.busy = false)
    (hf : s.app.farmbot = none) :
    (∃ msg, (loop s).2 = .error (.typeError msg)) ∧
    (loop s).1.app = { s.app with busy := true } ∧
    (loop s).1.inflight = s.inflight ∧
    issued (loop s).1.trace = issued s.trace ∧
    (∀ n : Nat,
      (loops n (loop s).1).app = { s.app with busy := true } ∧
      (loops n (loop s).1).inflight = s.inflight ∧
      (loops n (loop s).1).trace =
        (loop s).1.trace ++ List.replicate n (.consoleLog "Busy. Not running loop.") ∧
      issued (loops n (loop s).1).trace = issued s.trace) ∧
    (∀ (w : World) (env : ProcessEnv) (e : JSError),
      w.post (SERVER env ++ "/api/tokens")
          { user := { email := EMAIL env, password := PASSWORD env } } = .error e →
        (start w env Sys.init).1.app.busy = false ∧
        (start w env Sys.init).1.app.farmbot = none) := by
  have hl := loop_idle_none s hb hf
  refine ⟨⟨_, by rw [hl]⟩, by rw [hl], by rw [hl], ?_, ?_, ?_⟩
  · rw [hl]; simp [issued_append, issued]
  · intro n
    rw [loops_busy n _ (by rw [hl])]
    rw [hl]
    simp [issued_append, issued, issued_replicate_log]
  · intro w env e h
    rw [start_token_rejected w env e _ h]
    exact ⟨rfl, rfl⟩

/-- The initial state, which has no session, on which `loop_without_session` is
exercised: the first invocation throws and leaves `busy` set. -/
theorem loop_without_session_witness :
    (loop Sys.init).1.app = { APPLICATION_STATE with busy := true } :=
  (loop_without_session Sys.init rfl rfl).2.1

/-- C6 (stall after failure). From an idle state with a session, `loop` issues a
command; when that command is rejected, the failure handler only logs: `busy`
is still true, `direction` has the value it had before the tick and the command
is no longer in flight. After that, any number of invocations of `loop` issues
no further `moveRelative`, puts nothing in flight and leaves
`APPLICATION_STATE` as it is. -/
theorem stall_after_failure (s : Sys) (fb : Farmbot) (e : JSError)
    (hb : s.app.busy = false) (hf : s.app.farmbot = some fb) :
    (moveRejected s.inflight.length e (loop s).1).app.busy = true ∧
    (moveRejected s.inflight.length e (loop s).1).app.direction = s.app.direction ∧
    (moveRejected s.inflight.length e (loop s).1).app.farmbot = s.app.farmbot ∧
    (moveRejected s.inflight.length e (loop s).1).inflight = s.inflight ∧
    (moveRejected s.inflight.length e (loop s).1).trace =
      (loop s).1.trace ++ [.consoleLog "=== ERROR ===", .consoleDir e] ∧
    ∀ n : Nat,
      (loops n (moveRejected s.inflight.length e (loop s).1)).app =
        (moveRejected s.inflight.length e (loop s).1).app ∧
      (loops n (moveRejected s.inflight.length e (loop s).1)).inflight =
        (moveRejected s.inflight.length e (loop s).1).inflight ∧
      issued (loops n (moveRejected s.inflight.length e (loop s).1)).trace =
        issued (moveRejected s.inflight.length e (loop s).1).trace := by
  have key : ∃ p t, (loop s).1 =
      { app := { s.app with busy := true }, inflight := s.inflight ++ [p], trace := t } := by
    by_cases hd : s.app.direction = "up"
    · exact ⟨_, _, by rw [loop_idle_up s fb hb hf hd]⟩
    · exact ⟨_, _, by rw [loop_idle_other s fb hb hf hd]⟩
  obtain ⟨p, t, hl⟩ := key
  have hr : moveRejected s.inflight.length e (loop s).1 =
      { app := { s.app with busy := true }, inflight := s.inflight,
        trace := t ++ [.consoleLog "=== ERROR ===", .consoleDir e] } := by
    rw [hl]
    simp [moveRejected, errorHandler, Async.andThen, consoleLog, consoleDir, Sys.emit,
      eraseIdx_length_append_singleton]
  refine ⟨by rw [hr], by rw [hr], by rw [hr], by rw [hr], by rw [hr, hl], ?_⟩
  intro n
  rw [loops_busy n _ (by rw [hr])]
  simp [issued_append, issued_replicate_log]

/-- A first command from the initial direction, rejected, on which
`stall_after_failure` is exercised: three later ticks issue nothing more. -/
theorem stall_after_failure_witness :
    issued (loops 3 (moveRejected 0 (.rejection "timeout")
      (loop { app := { APPLICATION_STATE with farmbot := some { token := "T123" } }
              inflight := [], trace := [] }).1)).trace
      = issued (moveRejected 0 (.rejection "timeout")
      (loop { app := { APPLICATION_STATE with farmbot := some { token := "T123" } }
              inflight := [], trace := [] }).1).trace :=
  ((stall_after_failure
    { app := { APPLICATION_STATE with farmbot := some { token := "T123" } }
      inflight := [], trace := [] } { token := "T123" } (.rejection "timeout")
    rfl rfl).2.2.2.2.2 3).2.2

/-! ## At most one command in flight -/

theorem busyInv_loop (s : Sys) (h : BusyInv s) : BusyInv (loop s).1 := by
  obtain ⟨h1, h2⟩ := h
  cases hb : s.app.busy with
  | true =>
    rw [loop_busy s hb]
    exact ⟨h1, fun h => by simp [Sys.emit, hb] at h⟩
  | false =>
    have hi := h2 hb
    cases hf : s.app.farmbot with
    | none =>
      rw [loop_idle_none s hb hf]
      exact ⟨h1, fun h => by simp at h⟩
    | some fb =>
      by_cases hd : s.app.direction = "up"
      · rw [loop_idle_up s fb hb hf hd]
        exact ⟨by simp [hi], fun h => by simp at h⟩
      · rw [loop_idle_other s fb hb hf hd]
        exact ⟨by simp [hi], fun h => by simp at h⟩

theorem eraseIdx_of_length_le_one {α : Type} (l : List α) (i : Nat) (x : α)
    (h : l.length ≤ 1) (hi : l[i]? = some x) : l.eraseIdx i = [] := by
  match l, i with
  | [], _ => simp at hi
  | [_], 0 => rfl
  | [_], i + 1 => simp at hi
  | _ :: _ :: _, _ => simp at h

theorem busyInv_moveResolved (i : Nat) (s : Sys) (h : BusyInv s) :
    BusyInv (moveResolved i s) := by
  obtain ⟨h1, h2⟩ := h
  unfold moveResolved
  cases hp : s.inflight[i]? with
  | none => exact ⟨h1, h2⟩
  | some p =>
    have := eraseIdx_of_length_le_one s.inflight i p h1 hp
    exact ⟨by simp [this], fun _ => by simp [this]⟩

theorem busyInv_moveRejected (i : Nat) (e : JSError) (s : Sys) (h : BusyInv s) :
    BusyInv (moveRejected i e s) := by
  obtain ⟨h1, h2⟩ := h
  unfold moveRejected
  cases hp : s.inflight[i]? with
  | none => exact ⟨h1, h2⟩
  | some p =>
    have := eraseIdx_of_length_le_one s.inflight i p h1 hp
    exact ⟨by simp [errorHandler, Async.andThen, consoleLog, consoleDir, Sys.emit, this],
      fun _ => by simp [errorHandler, Async.andThen, consoleLog, consoleDir, Sys.emit, this]⟩

theorem busyInv_step (s : Sys) (ev : Event) (h : BusyInv s) : BusyInv (step s ev) := by
  cases ev with
  | tick => exact busyInv_loop s h
  | resolved i => exact busyInv_moveResolved i s h
  | rejected i e => exact busyInv_moveRejected i e s h

theorem busyInv_run (es : List Event) (s : Sys) (h : BusyInv s) : BusyInv (run s es) := by
  induction es generalizing s with
  | nil => exact h
  | cons ev es ih => exact ih (step s ev) (busyInv_step s ev h)

/-- C5 (single in-flight command). From any state with nothing in flight, in
particular the initial one where `busy == false`, after any sequence of loop
ticks, command successes and command failures, at most one `moveRelative`
command has been issued and not yet completed. -/
theorem single_in_flight (s0 : Sys) (es : List Event) (hi : s0.inflight = []) :
    (run s0 es).inflight.length ≤ 1 :=
  (busyInv_run es s0 ⟨by simp [hi], fun _ => hi⟩).1

/-- An interleaving of ticks, a failure and a success after a connected start,
on which `single_in_flight` is exercised. -/
theorem single_in_flight_witness :
    (run { app := { APPLICATION_STATE with farmbot := some { token := "T123" } }
           inflight := [], trace := [] }
      [.tick, .tick, .resolved 0, .tick, .rejected 0 (.rejection "timeout"), .tick]
      ).inflight.length ≤ 1 :=
  single_in_flight
    { app := { APPLICATION_STATE with farmbot := some { token := "T123" } }
      inflight := [], trace := [] }
    [.tick, .tick, .resolved 0, .tick, .rejected 0 (.rejection "timeout"), .tick] rfl

/-! ## Alternation -/

theorem successfulTick_up (s : Sys) (fb : Farmbot) (hd : s.app.direction = "up")
    (hb : s.app.busy = false) (hf : s.app.farmbot = some fb) (hi : s.inflight = []) :
    successfulTick s =
      { app := { s.app with direction := "down" }
        inflight := []
        trace := s.trace ++
          [.consoleLog "Move Z Axis up", .moveRelative fb { x := 0, y := 0, z := 1 }] } := by
  rw [successfulTick, loop_idle_up s fb hb hf hd]
  simp [moveResolved, hi, hb]

theorem successfulTick_down (s : Sys) (fb : Farmbot) (hd : s.app.direction = "down")
    (hb : s.app.busy = false) (hf : s.app.farmbot = some fb) (hi : s.inflight = []) :
    successfulTick s =
      { app := { s.app with direction := "up" }
        inflight := []
        trace := s.trace ++
          [.consoleLog "Move Z Axis down", .moveRelative fb { x := 0, y := 0, z := -1 }] } := by
  have hne : s.app.direction ≠ "up" := by rw [hd]; decide
  rw [successfulTick, loop_idle_other s fb hb hf hne]
  simp [moveResolved, hi, hb, hd]

theorem successfulTicks_issued (N p : Nat) (s : Sys) (fb : Farmbot)
    (hd : s.app.direction = if p % 2 = 0 then "up" else "down")
    (hb : s.app.busy = false) (hf : s.app.farmbot = some fb) (hi : s.inflight = []) :
    issued (successfulTicks N s).trace =
      issued s.trace ++ (List.range N).map fun i =>
        ({ x := 0, y := 0, z := if (i + p + 1) % 2 = 1 then 1 else -1 } : Offset) := by
  induction N generalizing p s with
  | zero => simp [successfulTicks]
  | succ N ih =>
    rw [successfulTicks, List.range_succ_eq_map, List.map_cons, List.map_map]
    by_cases hp : p % 2 = 0
    · rw [if_pos hp] at hd
      have h1 : (p + 1) % 2 ≠ 0 := by omega
      have hs := successfulTick_up s fb hd hb hf hi
      rw [ih (p + 1) (successfulTick s) (by rw [hs, if_neg h1]) (by rw [hs]; exact hb)
        (by rw [hs]; exact hf) (by rw [hs]), hs]
      have h2 : (0 + p + 1) % 2 = 1 := by omega
      simp only [issued_append, issued, if_pos h2, List.append_assoc, List.singleton_append,
        List.nil_append, Function.comp, Nat.succ_eq_add_one]
      congr 2
      apply List.map_congr_left
      intro i _
      have : (i + (p + 1) + 1) = (i.succ + p + 1) := by omega
      simp only [Function.comp, this]
    · rw [if_neg hp] at hd
      have h1 : (p + 1) % 2 = 0 := by omega
      have hs := successfulTick_down s fb hd hb hf hi
      rw [ih (p + 1) (successfulTick s) (by rw [hs, if_pos h1]) (by rw [hs]; exact hb)
        (by rw [hs]; exact hf) (by rw [hs]), hs]
      have h2 : ¬ (0 + p + 1) % 2 = 1 := by omega
      simp only [issued_append, issued, if_neg h2, List.append_assoc, List.singleton_append,
        List.nil_append, Function.comp, Nat.succ_eq_add_one]
      congr 2
      apply List.map_congr_left
      intro i _
      have : (i + (p + 1) + 1) = (i.succ + p + 1) := by omega
      simp only [Function.comp, this]

/-- C4 (alternation). From a state with direction `"up"`, `busy == false`, a
session and nothing in flight, `N` invocations of `loop`, each followed by the
success of its command before the next invocation, issue exactly `N` further
`moveRelative` offsets, the `k`-th of them (counting from 1) being
`{x: 0, y: 0, z: 1}` when `k` is odd and `{x: 0, y: 0, z: -1}` when `k` is even. -/
theorem alternation (N : Nat) (s : Sys) (fb : Farmbot) (hd : s.app.direction = "up")
    (hb : s.app.busy = false) (hf : s.app.farmbot = some fb) (hi : s.inflight = []) :
    issued (successfulTicks N s).trace =
      issued s.trace ++ (List.range N).map fun i =>
        ({ x := 0, y := 0, z := if (i + 1) % 2 = 1 then 1 else -1 } : Offset) :=
  successfulTicks_issued N 0 s fb (by simpa using hd) hb hf hi

/-- Four successful ticks from the state in which the end-to-end scenario arms
the loop, on which `alternation` is exercised: the offsets are `+1, -1, +1, -1`. -/
theorem alternation_witness :
    issued (successfulTicks 4 (main connectedWorld exampleEnv).1).trace
      = [{ x := 0, y := 0, z := 1 }, { x := 0, y := 0, z := -1 },
         { x := 0, y := 0, z := 1 }, { x := 0, y := 0, z := -1 }] :=
  alternation 4 (main connectedWorld exampleEnv).1 { token := exampleToken } rfl rfl rfl rfl

/-! ## The startup sequence -/

theorem loop_farmbot (s : Sys) : (loop s).1.app.farmbot = s.app.farmbot := by
  cases hb : s.app.busy with
  | true => rw [loop_busy s hb]; rfl
  | false =>
    cases hf : s.app.farmbot with
    | none => rw [loop_idle_none s hb hf]; exact hf
    | some fb =>
      by_cases hd : s.app.direction = "up"
      · rw [loop_idle_up s fb hb hf hd]; exact hf
      · rw [loop_idle_other s fb hb hf hd]; exact hf

theorem step_farmbot (s : Sys) (ev : Event) : (step s ev).app.farmbot = s.app.farmbot := by
  cases ev with
  | tick => exact loop_farmbot s
  | resolved i =>
    simp only [step, moveResolved]
    cases s.inflight[i]? <;> rfl
  | rejected i e =>
    simp only [step, moveRejected]
    cases s.inflight[i]? <;> rfl

theorem run_farmbot (es : List Event) (s : Sys) : (run s es).app.farmbot = s.app.farmbot := by
  induction es generalizing s with
  | nil => rfl
  | cons ev es ih => exact (ih (step s ev)).trans (step_farmbot s ev)

theorem start_resolves (w : World) (env : ProcessEnv) (s : Sys) :
    (start w env s).2 = .ok () := by
  cases h : w.post (SERVER env ++ "/api/tokens")
      { user := { email := EMAIL env, password := PASSWORD env } } with
  | error e => rw [start_token_rejected w env e s h]
  | ok r =>
    cases hn : w.newFarmbot r.data.token.encoded with
    | error e => rw [start_constructor_throws w env r e s h hn]
    | ok u =>
      cases hc : w.connect { token := r.data.token.encoded } with
      | error e => rw [start_connect_rejected w env r e s h hn hc]
      | ok u => rw [start_connected w env r s h hn hc]

theorem main_eq_of_credentials (w : World) (env : ProcessEnv)
    (hp : truthy (PASSWORD env) = true) (he : truthy (EMAIL env) = true) :
    main w env = ((start w env Sys.init).1.emit (.setInterval 3000), .ok ()) := by
  have h := start_resolves w env Sys.init
  simp only [main, hp, he, Bool.and_self, if_true, Async.andThen]
  revert h
  cases start w env Sys.init with
  | mk s1 r =>
    intro h
    simp only at h
    subst h
    rfl

/-- C7 (missing credentials fail fast). When `FARMBOT_EMAIL` is missing,
`FARMBOT_PASSWORD` is missing, or both are, the module throws the startup
`Error` with the system untouched: no external call at all has been made (no
`post`, hence no `createToken` and no `start`) and the loop is not armed. -/
theorem missing_credentials_fail_fast (w : World) (env : ProcessEnv)
    (h : env.FARMBOT_EMAIL = none ∨ env.FARMBOT_PASSWORD = none) :
    main w env =
      (Sys.init,
        .error (.error "You did not set FARMBOT_EMAIL or FARMBOT_PASSWORD in the .env file.")) ∧
    (main w env).1.trace = [] ∧
    armed (main w env).1 = false := by
  have hm : main w env =
      (Sys.init,
        .error (.error "You did not set FARMBOT_EMAIL or FARMBOT_PASSWORD in the .env file.")) := by
    rcases h with h | h <;> simp [main, PASSWORD, EMAIL, h, truthy]
  rw [hm]
  exact ⟨rfl, rfl, rfl⟩

/-- A run with a password and no email, on which `missing_credentials_fail_fast`
is exercised against a server that would have answered. -/
theorem missing_credentials_fail_fast_witness :
    (main connectedWorld noEmailEnv).1.trace = [] :=
  (missing_credentials_fail_fast connectedWorld noEmailEnv (Or.inl rfl)).2.1

/-- C8 as stated, evaluated where it fails. The token request succeeds with
`{data: {token: {encoded: "T123"}}}` and `createToken` resolves to `"T123"`, but
the constructor throws on that token: no session is stored, `connect()` is never
called and the error goes to `errorHandler`. -/
theorem token_pass_through_counterexample :
    constructorThrowsWorld.post (SERVER exampleEnv ++ "/api/tokens")
        { user := { email := EMAIL exampleEnv, password := PASSWORD exampleEnv } } =
      .ok { data := { token := { encoded := "T123" } } } ∧
    (start constructorThrowsWorld exampleEnv Sys.init).1.app.farmbot = none ∧
    (start constructorThrowsWorld exampleEnv Sys.init).1.trace =
      [.post "https://my.farm.bot/api/tokens"
          { user := { email := some "a@example.com", password := some "x" } },
       .postResolved { data := { token := { encoded := "T123" } } },
       .consoleLog "GOT TOKEN: T123",
       .newFarmbot "T123",
       .consoleLog "=== ERROR ===",
       .consoleDir (.error "Unable to decode token")] ∧
    Effect.connect { token := "T123" } ∉
      (start constructorThrowsWorld exampleEnv Sys.init).1.trace := by
  refine ⟨rfl, by decide, by decide, by decide⟩

/-- C8, amended (token pass-through). When the token request made by `start`
succeeds with response `r`, `createToken` resolves to `r.data.token.encoded`
and `start` next calls `new Farmbot` with exactly that token. When the
constructor returns, `start` stores the session in `APPLICATION_STATE.farmbot`
and calls `connect()` on it. When the constructor throws, `APPLICATION_STATE`
is left as it was, `connect()` is not called and the error is logged. -/
theorem token_pass_through (w : World) (env : ProcessEnv) (r : Response) (s : Sys)
    (h : w.post (SERVER env ++ "/api/tokens")
      { user := { email := EMAIL env, password := PASSWORD env } } = .ok r) :
    (createToken w env (EMAIL env) (PASSWORD env) s).2 = .ok r.data.token.encoded ∧
    (∃ rest, (start w env s).1.trace =
      s.trace ++
        [.post (SERVER env ++ "/api/tokens")
            { user := { email := EMAIL env, password := PASSWORD env } },
         .postResolved r,
         .consoleLog ("GOT TOKEN: " ++ r.data.token.encoded),
         .newFarmbot r.data.token.encoded] ++ rest) ∧
    (w.newFarmbot r.data.token.encoded = .ok () →
      (start w env s).1.app.farmbot = some { token := r.data.token.encoded } ∧
      ∃ rest, (start w env s).1.trace =
        s.trace ++
          [.post (SERVER env ++ "/api/tokens")
              { user := { email := EMAIL env, password := PASSWORD env } },
           .postResolved r,
           .consoleLog ("GOT TOKEN: " ++ r.data.token.encoded),
           .newFarmbot r.data.token.encoded,
           .connect { token := r.data.token.encoded }] ++ rest) ∧
    (∀ e : JSError, w.newFarmbot r.data.token.encoded = .error e →
      (start w env s).1.app = s.app ∧
      (start w env s).1.trace =
        s.trace ++
          [.post (SERVER env ++ "/api/tokens")
              { user := { email := EMAIL env, password := PASSWORD env } },
           .postResolved r,
           .consoleLog ("GOT TOKEN: " ++ r.data.token.encoded),
           .newFarmbot r.data.token.encoded,
           .consoleLog "=== ERROR ===", .consoleDir e]) := by
  refine ⟨by rw [createToken_resolved w env _ _ r s h], ?_, ?_, ?_⟩
  · cases hn : w.newFarmbot r.data.token.encoded with
    | error e =>
      rw [start_constructor_throws w env r e s h hn]
      exact ⟨[.consoleLog "=== ERROR ===", .consoleDir e], by simp⟩
    | ok u =>
      cases hc : w.connect { token := r.data.token.encoded } with
      | error e =>
        rw [start_connect_rejected w env r e s h hn hc]
        exact ⟨_, by simp; rfl⟩
      | ok u =>
        rw [start_connected w env r s h hn hc]
        exact ⟨_, by simp; rfl⟩
  · intro hn
    cases hc : w.connect { token := r.data.token.encoded } with
    | error e =>
      rw [start_connect_rejected w env r e s h hn hc]
      exact ⟨rfl, ⟨[.connectRejected { token := r.data.token.encoded } e,
        .consoleLog "=== ERROR ===", .consoleDir e], by simp⟩⟩
    | ok u =>
      rw [start_connected w env r s h hn hc]
      exact ⟨rfl, ⟨[.connectResolved { token := r.data.token.encoded },
        .consoleLog "CONNECTED TO FARMBOT!"], by simp⟩⟩
  · intro e hn
    rw [start_constructor_throws w env r e s h hn]
    exact ⟨rfl, rfl⟩

/-- A run where the constructor accepts the token, on which
`token_pass_through` is exercised: the session stored is the one constructed
with the token of the response. -/
theorem token_pass_through_witness :
    (start connectedWorld exampleEnv Sys.init).1.app.farmbot =
      some { token := exampleToken } :=
  ((token_pass_through connectedWorld exampleEnv exampleResponse Sys.init rfl).2.2.1 rfl).1

/-- C2 (arming order on the success path). With credentials present, the token
request resolving to `r`, the constructor returning (without which `connect()`
is not called at all) and `connect()` resolving, what happens during the whole
startup is, in order: `post`, its promise resolves, the token log,
`new Farmbot`, the call of `connect()`, the promise of `connect()` resolves, the
log `CONNECTED TO FARMBOT!`, and last `setInterval(loop, 3000)`. When `start` is
done the session is stored in `APPLICATION_STATE.farmbot` and the loop is not
armed yet; no `moveRelative` has been issued when the loop is armed; and after
any sequence of later events (so at every invocation of `loop`) the session is
still present. -/
theorem arming_after_connect (w : World) (env : ProcessEnv) (r : Response)
    (hp : truthy (PASSWORD env) = true) (he : truthy (EMAIL env) = true)
    (h : w.post (SERVER env ++ "/api/tokens")
      { user := { email := EMAIL env, password := PASSWORD env } } = .ok r)
    (hn : w.newFarmbot r.data.token.encoded = .ok ())
    (hc : w.connect { token := r.data.token.encoded } = .ok ()) :
    (main w env).2 = .ok () ∧
    (main w env).1.trace =
      [.post (SERVER env ++ "/api/tokens")
          { user := { email := EMAIL env, password := PASSWORD env } },
       .postResolved r,
       .consoleLog ("GOT TOKEN: " ++ r.data.token.encoded),
       .newFarmbot r.data.token.encoded,
       .connect { token := r.data.token.encoded },
       .connectResolved { token := r.data.token.encoded },
       .consoleLog "CONNECTED TO FARMBOT!",
       .setInterval 3000] ∧
    (start w env Sys.init).1.app.farmbot = some { token := r.data.token.encoded } ∧
    armed (start w env Sys.init).1 = false ∧
    armed (main w env).1 = true ∧
    issued (main w env).1.trace = [] ∧
    (main w env).1.inflight = [] ∧
    ∀ es : List Event,
      (run (main w env).1 es).app.farmbot = some { token := r.data.token.encoded } := by
  have hm := main_eq_of_credentials w env hp he
  have hs := start_connected w env r Sys.init h hn hc
  rw [hs] at hm
  rw [hm, hs]
  refine ⟨rfl, rfl, rfl, ?_, ?_, ?_, rfl, ?_⟩
  · simp [armed, Sys.init]
  · simp [armed, Sys.init, Sys.emit]
  · simp [issued, Sys.init, Sys.emit]
  · intro es
    rw [run_farmbot]
    rfl

/-- A run where everything succeeds, on which `arming_after_connect` is
exercised: `connect()` has resolved before `setInterval(loop, 3000)` is called. -/
theorem arming_after_connect_witness :
    (main connectedWorld exampleEnv).1.trace =
      [.post "https://my.farm.bot/api/tokens"
          { user := { email := some "a@example.com", password := some "x" } },
       .postResolved exampleResponse,
       .consoleLog ("GOT TOKEN: " ++ exampleToken),
       .newFarmbot exampleToken,
       .connect { token := exampleToken },
       .connectResolved { token := exampleToken },
       .consoleLog "CONNECTED TO FARMBOT!",
       .setInterval 3000] :=
  (arming_after_connect connectedWorld exampleEnv exampleResponse rfl rfl rfl rfl rfl).2.1

/-- C1, evaluated where it fails. With credentials present and the token
request rejected, `start` catches the rejection and its promise resolves, so
`setInterval(loop, 3000)` is called and the first tick runs `loop`, which
throws on the missing session. With the token request resolved and `connect()`
rejected the loop is armed as well, and the first tick issues
`moveRelative({x: 0, y: 0, z: 1})` on the session that never connected. -/
theorem startup_failure_arms_loop :
    (main tokenRejectedWorld exampleEnv).1.trace =
      [.post "https://my.farm.bot/api/tokens"
          { user := { email := some "a@example.com", password := some "x" } },
       .postRejected (.rejection "Request failed with status code 401"),
       .consoleLog "=== ERROR ===",
       .consoleDir (.rejection "Request failed with status code 401"),
       .setInterval 3000] ∧
    armed (main tokenRejectedWorld exampleEnv).1 = true ∧
    (loop (main tokenRejectedWorld exampleEnv).1).2 =
      .error (.typeError "Cannot read property moveRelative of undefined") ∧
    (main connectRejectedWorld exampleEnv).1.trace =
      [.post "https://my.farm.bot/api/tokens"
          { user := { email := some "a@example.com", password := some "x" } },
       .postResolved exampleResponse,
       .consoleLog ("GOT TOKEN: " ++ exampleToken),
       .newFarmbot exampleToken,
       .connect { token := exampleToken },
       .connectRejected { token := exampleToken } (.rejection "connection refused"),
       .consoleLog "=== ERROR ===",
       .consoleDir (.rejection "connection refused"),
       .setInterval 3000] ∧
    armed (main connectRejectedWorld exampleEnv).1 = true ∧
    issued (step (main connectRejectedWorld exampleEnv).1 .tick).trace =
      [{ x := 0, y := 0, z := 1 }] := by
  refine ⟨by decide, by decide, rfl, by decide, by decide, by decide⟩

end RemoteControl
